import Mathlib

/-!
Shallow embedding of `scripts/benchmark_comparison.py`: the benchmark
harness comparing an HSP planner and an MCTS planner.  Strings are
modelled as Lean `String` and manipulated through their character lists;
Python floats are modelled as rationals; Python ints as `Int`/`Nat`.
-/

/-- The ASCII fragment of Python's whitespace class used by both the
regex shorthand for whitespace and by the argument-free str.strip. -/
def pySpace (c : Char) : Bool :=
  c = ' ' || c = '\t' || c = '\n' || c = '\r' || c = '\x0b' || c = '\x0c'

/-- Consume the literal list of characters at the front of the input,
returning the remainder on success; models matching a literal fragment
of a regular expression at a fixed position. -/
def dropLit? : List Char → List Char → Option (List Char)
  | [], cs => some cs
  | _ :: _, [] => none
  | l :: ls, c :: cs => if c = l then dropLit? ls cs else none

/-- Numeric value of a run of decimal digits; models Python's int() on
the captured group (a nonempty string of digits). -/
def digitsToNat (ds : List Char) : Nat :=
  ds.foldl (fun n c => 10 * n + (c.toNat - '0'.toNat)) 0

/-- Shape of the four regular expressions in extract_plan_length: an
opening literal, an optional run of whitespace, a captured nonempty
digit run, and a closing literal. -/
structure Pat where
  lit1 : List Char
  sp : Bool
  lit2 : List Char

/-- Whether the pattern matches at the start of the input, and the
captured number when it does.  Greedy matching of the whitespace run
and the digit run agrees with Python's backtracking here: shortening
either run puts a whitespace or digit character where a digit or the
closing literal is required. -/
def matchAt (p : Pat) (cs : List Char) : Option Nat :=
  match dropLit? p.lit1 cs with
  | none => none
  | some r0 =>
    let r1 := if p.sp then r0.dropWhile pySpace else r0
    let ds := r1.takeWhile Char.isDigit
    if ds.isEmpty then none
    else
      match dropLit? p.lit2 (r1.dropWhile Char.isDigit) with
      | none => none
      | some _ => some (digitsToNat ds)

/-- Leftmost-match search: models re.search, trying every start
position from the left and returning the first capture. -/
def searchPat (p : Pat) : List Char → Option Nat
  | [] => matchAt p []
  | c :: cs =>
    match matchAt p (c :: cs) with
    | some n => some n
    | none => searchPat p cs

/-- Regular expression Plan length: followed by whitespace and a
captured digit run. -/
def planLengthPat : Pat := ⟨"Plan length:".data, true, []⟩

/-- Regular expression Solution found with N actions. -/
def solutionFoundPat : Pat := ⟨"Solution found with ".data, false, " actions".data⟩

/-- Regular expression N actions in the plan. -/
def actionsInPlanPat : Pat := ⟨[], false, " actions in the plan".data⟩

/-- Regular expression Steps: followed by whitespace and a captured
digit run. -/
def stepsPat : Pat := ⟨"Steps:".data, true, []⟩

/-- The ordered pattern list of extract_plan_length. -/
def patterns : List Pat := [planLengthPat, solutionFoundPat, actionsInPlanPat, stepsPat]

/-- Value of the first pattern in the list that matches anywhere in the
input; models the for-loop over patterns in extract_plan_length. -/
def firstMatch : List Pat → List Char → Option Nat
  | [], _ => none
  | p :: ps, cs =>
    match searchPat p cs with
    | some n => some n
    | none => firstMatch ps cs

/-- Split on newline characters; models Python str.split applied with a
newline separator, which yields one (possibly empty) piece per gap. -/
def splitOnNl : List Char → List (List Char)
  | [] => [[]]
  | c :: rest =>
    match splitOnNl rest, decide (c = '\n') with
    | r, true => [] :: r
    | [], false => [[c]]
    | l :: ls, false => (c :: l) :: ls

/-- Remove leading and trailing whitespace; models str.strip(). -/
def pyStrip (cs : List Char) : List Char :=
  ((cs.dropWhile pySpace).reverse.dropWhile pySpace).reverse

/-- Whether a line counts as an action invocation in the fallback
heuristic: stripped it starts with an opening parenthesis, and the line
contains a closing parenthesis. -/
def isActionLine (line : List Char) : Bool :=
  (match pyStrip line with
   | '(' :: _ => true
   | _ => false) && line.contains ')'

/-- Number of action-like lines of the output text. -/
def actionCountOf (output : String) : Nat :=
  ((splitOnNl output.data).filter isActionLine).length

/-- Embedding of extract_plan_length: the first matching pattern's
capture, else the action-line count when positive, else -1. -/
def extract_plan_length (output : String) : Int :=
  match firstMatch patterns output.data with
  | some n => (n : Int)
  | none =>
    let action_count := actionCountOf output
    if action_count > 0 then (action_count : Int) else -1

/-- Result of a subprocess.run call that returned normally: exit code
and captured textual streams. -/
structure CompletedProcess where
  returncode : Int
  stdout : String
  stderr : String
deriving DecidableEq

/-- Observable behaviour of one subprocess.run call under a timeout:
either the process completed (with its captured result and the measured
elapsed wall-clock seconds) or the TimeoutExpired exception was thrown. -/
inductive SubprocessResult where
  | completed (r : CompletedProcess) (elapsed : ℚ)
  | timeoutExpired
deriving DecidableEq

/-- The dictionary returned by both planner adapters. -/
structure RunOutcome where
  success : Bool
  runtime : ℚ
  plan_length : Int
  stdout : String
  stderr : String
deriving DecidableEq

/-- Configuration state of the PlannerBenchmark object: the jar path
and the timeout in seconds (an integer, as built by the CLI). -/
structure PlannerBenchmark where
  pddl4j_path : String
  timeout : Int
deriving DecidableEq

/-- Command line built by run_hsp_planner. -/
def hsp_cmd (b : PlannerBenchmark) (domain_file problem_file : String) : List String :=
  ["java", "-cp", b.pddl4j_path,
   "fr.uga.pddl4j.planners.statespace.HSP",
   "-d", domain_file,
   "-p", problem_file,
   "-t", toString b.timeout]

/-- Command line built by run_mcts_planner. -/
def mcts_cmd (b : PlannerBenchmark) (domain_file problem_file : String)
    (walks length : Int) : List String :=
  ["java", "-cp", b.pddl4j_path ++ ":target/classes",
   "fr.uga.pddl4j.planners.mcts.MCTSPlanner",
   "-d", domain_file,
   "-p", problem_file,
   "-t", toString b.timeout,
   "-w", toString walks,
   "-l", toString length]

/-- Embedding of run_hsp_planner.  The external world is a function
from the command line to the behaviour of subprocess.run on it.  On
normal completion the outcome packages the measured runtime, the plan
length extracted from stdout, and success as exit code zero with a
positive plan length; on TimeoutExpired it is the fixed timeout
outcome. -/
def run_hsp_planner (b : PlannerBenchmark) (domain_file problem_file : String)
    (exec : List String → SubprocessResult) : RunOutcome :=
  match exec (hsp_cmd b domain_file problem_file) with
  | .completed r elapsed =>
    let plan_length := extract_plan_length r.stdout
    let success := r.returncode == 0 && decide (plan_length > 0)
    ⟨success, elapsed, plan_length, r.stdout, r.stderr⟩
  | .timeoutExpired =>
    ⟨false, (b.timeout : ℚ), -1, "", "Timeout"⟩

/-- Embedding of run_mcts_planner; identical outcome handling to the
HSP adapter, with a different command line (walks default 1000, walk
length default 100 at the Python call sites). -/
def run_mcts_planner (b : PlannerBenchmark) (domain_file problem_file : String)
    (walks length : Int) (exec : List String → SubprocessResult) : RunOutcome :=
  match exec (mcts_cmd b domain_file problem_file walks length) with
  | .completed r elapsed =>
    let plan_length := extract_plan_length r.stdout
    let success := r.returncode == 0 && decide (plan_length > 0)
    ⟨success, elapsed, plan_length, r.stdout, r.stderr⟩
  | .timeoutExpired =>
    ⟨false, (b.timeout : ℚ), -1, "", "Timeout"⟩

/-- Fields of one aggregated result record as consumed by
generate_plots (the columns the DataFrame is indexed with). -/
structure ComparisonRecord where
  domain : String
  hsp_runtime : ℚ
  mcts_runtime : ℚ
  hsp_plan_length : Int
  mcts_plan_length : Int
deriving DecidableEq

/-- Insert a record into a list so that records with a strictly smaller
hsp_runtime stay in front; the building block of the by-runtime sort. -/
def insertByRuntime (r : ComparisonRecord) : List ComparisonRecord → List ComparisonRecord
  | [] => [r]
  | x :: xs =>
    if x.hsp_runtime < r.hsp_runtime then x :: insertByRuntime r xs
    else r :: x :: xs

/-- Embedding of the DataFrame sort by the hsp_runtime column used in
generate_plots, as one concrete sort by ascending hsp_runtime (an
insertion sort).  The library call only guarantees the rows come out
ordered by the column; the relative order of rows with equal
hsp_runtime is unspecified (the default sort kind is not stable), so
only properties that are invariant under the order within a runtime
class transfer from this model to the program. -/
def sort_values : List ComparisonRecord → List ComparisonRecord
  | [] => []
  | r :: rs => insertByRuntime r (sort_values rs)

/-- First-occurrence deduplication; models the unique() call on the
domain column, which keeps domains in order of first appearance. -/
def uniqueFirst (l : List String) : List String :=
  l.foldl (fun acc d => if d ∈ acc then acc else acc ++ [d]) []

/-- The rows plotted for one domain: the records of that domain in
input order, then sorted by ascending hsp_runtime. -/
def domainPanel (results : List ComparisonRecord) (d : String) : List ComparisonRecord :=
  sort_values (results.filter (fun r => r.domain == d))

/-- Display value of a plan length in the second panel: the length
itself when positive, otherwise the float infinity sentinel (modelled
as the top element). -/
def displayLength (l : Int) : WithTop Int :=
  if l > 0 then (l : WithTop Int) else ⊤

/-- Data of the two sub-plots drawn for one domain. -/
structure DomainPanelData where
  hsp_runtimes : List ℚ
  mcts_runtimes : List ℚ
  hsp_lengths : List (WithTop Int)
  mcts_lengths : List (WithTop Int)
deriving DecidableEq

/-- The plotted series for one domain, read off the sorted rows. -/
def makePanel (results : List ComparisonRecord) (d : String) : DomainPanelData :=
  let df := domainPanel results d
  ⟨df.map (fun r => r.hsp_runtime),
   df.map (fun r => r.mcts_runtime),
   df.map (fun r => displayLength r.hsp_plan_length),
   df.map (fun r => displayLength r.mcts_plan_length)⟩

/-- Observable effect of generate_plots: either the diagnostic notice
with no files written, or one figure file per distinct domain. -/
inductive PlotResult where
  | noData (notice : String)
  | figures (files : List (String × DomainPanelData))
deriving DecidableEq

/-- Embedding of generate_plots: empty results are a no-op with a
printed notice; otherwise one two-panel figure per domain is saved
under the figures directory. -/
def generate_plots (results : List ComparisonRecord) : PlotResult :=
  if results.isEmpty then .noData "No results to plot"
  else .figures ((uniqueFirst (results.map (fun r => r.domain))).map
    (fun d => ("results/figures/" ++ d ++ "_comparison.png", makePanel results d)))

/-- Substring occurrence test, used to state claims that speak of an
output text containing a given phrase. -/
def listOccurs (needle : List Char) : List Char → Bool
  | [] => (dropLit? needle []).isSome
  | c :: cs => (dropLit? needle (c :: cs)).isSome || listOccurs needle cs

/-- Whether the second string contains the first as a substring. -/
def occursIn (needle hay : String) : Bool :=
  listOccurs needle.data hay.data

/-- Whether a string starts with a decimal digit. -/
def startsWithDigit (s : String) : Bool :=
  match s.data with
  | [] => false
  | c :: _ => c.isDigit

/-- File paths written by a generate_plots call. -/
def filesOf : PlotResult → List String
  | .noData _ => []
  | .figures fs => fs.map (fun f => f.1)

/-- Claim C1: for every invocation of a planner adapter in which the
external process exceeds the timeout, the call does not raise: it
returns a RunOutcome with success = false, runtime equal to the
configured timeout value, plan_length = -1, stdout = "" and
stderr = "Timeout". -/
theorem claim_C1_timeout_outcome (b : PlannerBenchmark)
    (domain_file problem_file : String) (walks len : Int)
    (exec : List String → SubprocessResult)
    (hh : exec (hsp_cmd b domain_file problem_file) = .timeoutExpired)
    (hm : exec (mcts_cmd b domain_file problem_file walks len) = .timeoutExpired) :
    run_hsp_planner b domain_file problem_file exec =
      ⟨false, (b.timeout : ℚ), -1, "", "Timeout"⟩ ∧
    run_mcts_planner b domain_file problem_file walks len exec =
      ⟨false, (b.timeout : ℚ), -1, "", "Timeout"⟩ := by
  constructor
  · simp only [run_hsp_planner, hh]
  · simp only [run_mcts_planner, hm]

/-- Witness for C1 at a concrete configuration and a subprocess model
that always times out. -/
theorem claim_C1_timeout_outcome_witness :
    run_hsp_planner ⟨"pddl4j.jar", 300⟩ "d.pddl" "p.pddl" (fun _ => .timeoutExpired) =
      ⟨false, ((300 : Int) : ℚ), -1, "", "Timeout"⟩ ∧
    run_mcts_planner ⟨"pddl4j.jar", 300⟩ "d.pddl" "p.pddl" 1000 100 (fun _ => .timeoutExpired) =
      ⟨false, ((300 : Int) : ℚ), -1, "", "Timeout"⟩ :=
  claim_C1_timeout_outcome ⟨"pddl4j.jar", 300⟩ "d.pddl" "p.pddl" 1000 100
    (fun _ => .timeoutExpired) rfl rfl

/-- Claim C9: calling generate_plots on an empty result set emits the
diagnostic notice and returns without producing any output file. -/
theorem claim_C9_empty_noop :
    generate_plots [] = .noData "No results to plot" ∧
    filesOf (generate_plots []) = [] := by
  constructor <;> rfl

/-- Claim C10: every RunOutcome returned by either adapter satisfies
success = true implies plan_length at least 1. -/
theorem claim_C10_success_positive_length (b : PlannerBenchmark)
    (domain_file problem_file : String) (walks len : Int)
    (exec : List String → SubprocessResult) :
    ((run_hsp_planner b domain_file problem_file exec).success = true →
      1 ≤ (run_hsp_planner b domain_file problem_file exec).plan_length) ∧
    ((run_mcts_planner b domain_file problem_file walks len exec).success = true →
      1 ≤ (run_mcts_planner b domain_file problem_file walks len exec).plan_length) := by
  constructor
  · intro h
    unfold run_hsp_planner at h ⊢
    cases hx : exec (hsp_cmd b domain_file problem_file) with
    | completed r elapsed =>
      rw [hx] at h
      simp at h ⊢
      omega
    | timeoutExpired =>
      rw [hx] at h
      simp at h
  · intro h
    unfold run_mcts_planner at h ⊢
    cases hx : exec (mcts_cmd b domain_file problem_file walks len) with
    | completed r elapsed =>
      rw [hx] at h
      simp at h ⊢
      omega
    | timeoutExpired =>
      rw [hx] at h
      simp at h

/-- Witness for C10 at a concrete subprocess model that exits cleanly
and reports a plan of three actions. -/
theorem claim_C10_success_positive_length_witness :
    1 ≤ (run_hsp_planner ⟨"pddl4j.jar", 300⟩ "d" "p"
          (fun _ => .completed ⟨0, "Plan length: 3", ""⟩ 1)).plan_length ∧
    1 ≤ (run_mcts_planner ⟨"pddl4j.jar", 300⟩ "d" "p" 1000 100
          (fun _ => .completed ⟨0, "Plan length: 3", ""⟩ 1)).plan_length :=
  ⟨(claim_C10_success_positive_length ⟨"pddl4j.jar", 300⟩ "d" "p" 1000 100
      (fun _ => .completed ⟨0, "Plan length: 3", ""⟩ 1)).1 (by decide),
   (claim_C10_success_positive_length ⟨"pddl4j.jar", 300⟩ "d" "p" 1000 100
      (fun _ => .completed ⟨0, "Plan length: 3", ""⟩ 1)).2 (by decide)⟩

/-- Claim C3: extract_plan_length evaluates its four patterns in a
fixed priority order and returns the capture of the first pattern in
that list that matches anywhere in the input; a later-listed pattern is
never consulted when an earlier-listed one matches. -/
theorem claim_C3_pattern_priority (out : String) (n : Nat) :
    (searchPat planLengthPat out.data = some n → extract_plan_length out = n) ∧
    (searchPat planLengthPat out.data = none →
      searchPat solutionFoundPat out.data = some n → extract_plan_length out = n) ∧
    (searchPat planLengthPat out.data = none →
      searchPat solutionFoundPat out.data = none →
      searchPat actionsInPlanPat out.data = some n → extract_plan_length out = n) ∧
    (searchPat planLengthPat out.data = none →
      searchPat solutionFoundPat out.data = none →
      searchPat actionsInPlanPat out.data = none →
      searchPat stepsPat out.data = some n → extract_plan_length out = n) := by
  refine ⟨?_, ?_, ?_, ?_⟩ <;> intros <;>
    simp_all [extract_plan_length, patterns, firstMatch]

/-- Witness for C3 on a text in which the third-listed pattern occurs
earlier in the text than the first-listed one; the first-listed pattern
still decides the result. -/
theorem claim_C3_pattern_priority_witness :
    searchPat actionsInPlanPat "3 actions in the plan and Plan length: 9".data = some 3 ∧
    extract_plan_length "3 actions in the plan and Plan length: 9" = 9 :=
  ⟨by decide,
   (claim_C3_pattern_priority "3 actions in the plan and Plan length: 9" 9).1 (by decide)⟩

/-- Claim C5: when none of the four patterns matches, the extractor
returns the number of lines that, stripped, start with an opening
parenthesis and contain a closing one, provided that count is
positive. -/
theorem claim_C5_fallback_count (out : String)
    (h : ∀ p ∈ patterns, searchPat p out.data = none)
    (hpos : 0 < actionCountOf out) :
    extract_plan_length out = (actionCountOf out : Int) := by
  have h1 := h planLengthPat (by simp [patterns])
  have h2 := h solutionFoundPat (by simp [patterns])
  have h3 := h actionsInPlanPat (by simp [patterns])
  have h4 := h stepsPat (by simp [patterns])
  simp [extract_plan_length, patterns, firstMatch, h1, h2, h3, h4, hpos]

/-- Witness for C5 on a pattern-free text with exactly three
action-like lines. -/
theorem claim_C5_fallback_count_witness :
    extract_plan_length "(pick a)\n(move a b)\n(drop b)" =
      (actionCountOf "(pick a)\n(move a b)\n(drop b)" : Int) ∧
    actionCountOf "(pick a)\n(move a b)\n(drop b)" = 3 :=
  ⟨claim_C5_fallback_count "(pick a)\n(move a b)\n(drop b)" (by decide) (by decide),
   by decide⟩

/-- Claim C6: when no pattern matches and the action-line count is
zero, extract_plan_length returns exactly -1; moreover -1 is the
smallest value it can ever produce, so -1 is the only sentinel for the
undetermined case. -/
theorem claim_C6_sentinel (out : String) :
    ((∀ p ∈ patterns, searchPat p out.data = none) → actionCountOf out = 0 →
      extract_plan_length out = -1) ∧
    -1 ≤ extract_plan_length out := by
  constructor
  · intro h hz
    have h1 := h planLengthPat (by simp [patterns])
    have h2 := h solutionFoundPat (by simp [patterns])
    have h3 := h actionsInPlanPat (by simp [patterns])
    have h4 := h stepsPat (by simp [patterns])
    simp [extract_plan_length, patterns, firstMatch, h1, h2, h3, h4, hz]
  · unfold extract_plan_length
    cases firstMatch patterns out.data with
    | some n =>
      show -1 ≤ (n : Int)
      omega
    | none =>
      by_cases hc : 0 < actionCountOf out
      · simp only [hc, if_pos]
        omega
      · simp [hc]

/-- Witness for C6 on a text with no pattern occurrence and no
action-like line. -/
theorem claim_C6_sentinel_witness : extract_plan_length "hello" = -1 :=
  (claim_C6_sentinel "hello").1 (by decide) (by decide)

/-- Matching a literal against itself followed by anything consumes
exactly the literal. -/
theorem dropLit?_self_append (l rest : List Char) : dropLit? l (l ++ rest) = some rest := by
  induction l with
  | nil => rfl
  | cons c cs ih => simp [dropLit?, ih]

/-- A match at the first position makes the leftmost search succeed
immediately with the same capture. -/
theorem searchPat_of_matchAt {p : Pat} {cs : List Char} {n : Nat}
    (h : matchAt p cs = some n) : searchPat p cs = some n := by
  cases cs with
  | nil => simpa [searchPat] using h
  | cons c cs => simp [searchPat, h]

/-- Counterexample to claim C4 as stated: the text Plan length: 77
contains the substring Plan length: 7, yet extraction returns 77
because the leftmost match captures the whole digit run. -/
theorem claim_C4_counterexample :
    occursIn "Plan length: 7" "Plan length: 77" = true ∧
    extract_plan_length "Plan length: 77" = 77 ∧
    decide (extract_plan_length "Plan length: 77" = 7) = false := by
  decide

/-- Claim C4 amended: every output text that begins with Plan
length: 7 and does not continue with a further digit yields 7; the
original universally quantified containment claim fails when adjacent
digits extend the captured run or an earlier occurrence of the pattern
captures a different value. -/
theorem claim_C4_amended (v : String) (h : startsWithDigit v = false) :
    extract_plan_length ("Plan length: 7" ++ v) = 7 := by
  have htk : v.data.takeWhile Char.isDigit = [] := by
    cases hv : v.data with
    | nil => rfl
    | cons c cs =>
      have hc : c.isDigit = false := by
        have h2 := h
        unfold startsWithDigit at h2
        rw [hv] at h2
        exact h2
      rw [List.takeWhile_cons_of_neg (by simp [hc])]
  have hdata : ("Plan length: 7" ++ v).data =
      "Plan length:".data ++ (' ' :: '7' :: v.data) := by
    rw [String.data_append,
      show "Plan length: 7".data = "Plan length:".data ++ [' ', '7'] from rfl,
      List.append_assoc]
    rfl
  have hdw : List.dropWhile pySpace (' ' :: '7' :: v.data) = '7' :: v.data := by
    rw [List.dropWhile_cons_of_pos (by decide), List.dropWhile_cons_of_neg (by decide)]
  have htw : List.takeWhile Char.isDigit ('7' :: v.data) = ['7'] := by
    rw [List.takeWhile_cons_of_pos (by decide), htk]
  have hmatch : matchAt planLengthPat ("Plan length:".data ++ (' ' :: '7' :: v.data)) =
      some 7 := by
    simp only [matchAt, planLengthPat, dropLit?_self_append, hdw, htw]
    norm_num [digitsToNat, dropLit?]
    exact ⟨by decide, by rw [htw]; decide⟩
  have hsearch : searchPat planLengthPat ("Plan length: 7" ++ v).data = some 7 := by
    rw [hdata]
    exact searchPat_of_matchAt hmatch
  have hfm : firstMatch patterns ("Plan length: 7" ++ v).data = some 7 := by
    simp only [patterns, firstMatch, hsearch]
  unfold extract_plan_length
  rw [hfm]
  rfl

/-- Witness for the amended C4 at a concrete non-digit tail. -/
theorem claim_C4_amended_witness :
    extract_plan_length ("Plan length: 7" ++ " (total)") = 7 :=
  claim_C4_amended " (total)" (by decide)

/-- Counterexample to claim C2 as stated: a clean exit whose stdout
contains the substring Steps: 5 while matching none of the three
earlier patterns, yet whose extracted plan length is 55, not 5,
because the captured digit run extends past the 5. -/
theorem claim_C2_counterexample :
    occursIn "Steps: 5" "Steps: 55" = true ∧
    searchPat planLengthPat "Steps: 55".data = none ∧
    searchPat solutionFoundPat "Steps: 55".data = none ∧
    searchPat actionsInPlanPat "Steps: 55".data = none ∧
    (run_hsp_planner ⟨"pddl4j.jar", 300⟩ "d" "p"
        (fun _ => .completed ⟨0, "Steps: 55", ""⟩ 1)).success = true ∧
    (run_hsp_planner ⟨"pddl4j.jar", 300⟩ "d" "p"
        (fun _ => .completed ⟨0, "Steps: 55", ""⟩ 1)).plan_length = 55 ∧
    decide ((run_hsp_planner ⟨"pddl4j.jar", 300⟩ "d" "p"
        (fun _ => .completed ⟨0, "Steps: 55", ""⟩ 1)).plan_length = 5) = false := by
  decide

/-- Claim C2 amended: on a normal exit the returned outcome has
success equal to exit status zero together with a positive plan length
extracted from stdout, and its plan_length field is exactly the
extractor value; in particular a zero exit status with stdout exactly
Steps: 5 yields success and plan length five.  (The original phrasing
over every stdout merely containing the substring Steps: 5 fails, as
the digit run captured at the leftmost match can differ from 5.) -/
theorem claim_C2_amended (b : PlannerBenchmark) (domain_file problem_file : String)
    (walks len : Int) (exec : List String → SubprocessResult)
    (r : CompletedProcess) (elapsed : ℚ)
    (hh : exec (hsp_cmd b domain_file problem_file) = .completed r elapsed)
    (hm : exec (mcts_cmd b domain_file problem_file walks len) = .completed r elapsed) :
    ((run_hsp_planner b domain_file problem_file exec).success = true ↔
      (r.returncode = 0 ∧ 0 < extract_plan_length r.stdout)) ∧
    (run_hsp_planner b domain_file problem_file exec).plan_length =
      extract_plan_length r.stdout ∧
    ((run_mcts_planner b domain_file problem_file walks len exec).success = true ↔
      (r.returncode = 0 ∧ 0 < extract_plan_length r.stdout)) ∧
    (run_mcts_planner b domain_file problem_file walks len exec).plan_length =
      extract_plan_length r.stdout ∧
    (r.returncode = 0 → r.stdout = "Steps: 5" →
      (run_hsp_planner b domain_file problem_file exec).success = true ∧
      (run_hsp_planner b domain_file problem_file exec).plan_length = 5) := by
  have hout1 : run_hsp_planner b domain_file problem_file exec =
      ⟨r.returncode == 0 && decide (0 < extract_plan_length r.stdout), elapsed,
        extract_plan_length r.stdout, r.stdout, r.stderr⟩ := by
    unfold run_hsp_planner
    rw [hh]
  have hout2 : run_mcts_planner b domain_file problem_file walks len exec =
      ⟨r.returncode == 0 && decide (0 < extract_plan_length r.stdout), elapsed,
        extract_plan_length r.stdout, r.stdout, r.stderr⟩ := by
    unfold run_mcts_planner
    rw [hm]
  refine ⟨?_, ?_, ?_, ?_, ?_⟩
  · rw [hout1]
    simp [Bool.and_eq_true, decide_eq_true_eq, beq_iff_eq]
  · rw [hout1]
  · rw [hout2]
    simp [Bool.and_eq_true, decide_eq_true_eq, beq_iff_eq]
  · rw [hout2]
  · intro h0 hs
    rw [hout1]
    simp only [h0, hs]
    exact ⟨by decide, by decide⟩

/-- Witness for the amended C2 at a concrete subprocess model exiting
cleanly with stdout exactly Steps: 5. -/
theorem claim_C2_amended_witness :
    (run_hsp_planner ⟨"pddl4j.jar", 300⟩ "d" "p"
        (fun _ => .completed ⟨0, "Steps: 5", ""⟩ 1)).success = true ∧
    (run_hsp_planner ⟨"pddl4j.jar", 300⟩ "d" "p"
        (fun _ => .completed ⟨0, "Steps: 5", ""⟩ 1)).plan_length = 5 :=
  (claim_C2_amended ⟨"pddl4j.jar", 300⟩ "d" "p" 1000 100
      (fun _ => .completed ⟨0, "Steps: 5", ""⟩ 1) ⟨0, "Steps: 5", ""⟩ 1
      rfl rfl).2.2.2.2 rfl rfl

/-- Claim C8: in the plan-length display an undetermined plan length
of -1 is mapped to the positive-infinity sentinel, strictly above
every finite plan length, and a panel row with hsp_plan_length -1
contributes that sentinel to its domain's plotted series. -/
theorem claim_C8_undetermined_display (results : List ComparisonRecord) (d : String)
    (r : ComparisonRecord) (hr : r ∈ domainPanel results d)
    (hlen : r.hsp_plan_length = -1) :
    displayLength (-1) = ⊤ ∧
    (∀ n : Int, (n : WithTop Int) < displayLength (-1)) ∧
    ⊤ ∈ (makePanel results d).hsp_lengths := by
  have htop : displayLength (-1) = ⊤ := by decide
  refine ⟨htop, ?_, ?_⟩
  · intro n
    rw [htop]
    exact WithTop.coe_lt_top n
  · have hmem : displayLength r.hsp_plan_length ∈ (makePanel results d).hsp_lengths := by
      show displayLength r.hsp_plan_length ∈
        (domainPanel results d).map (fun r => displayLength r.hsp_plan_length)
      exact List.mem_map_of_mem _ hr
    rw [hlen, htop] at hmem
    exact hmem

/-- Witness for C8 at a one-record result set whose HSP plan length is
undetermined. -/
theorem claim_C8_undetermined_display_witness :
    displayLength (-1) = ⊤ ∧
    ((3 : Int) : WithTop Int) < displayLength (-1) ∧
    ⊤ ∈ (makePanel [⟨"blocksworld", 1, 2, -1, 4⟩] "blocksworld").hsp_lengths :=
  ⟨(claim_C8_undetermined_display [⟨"blocksworld", 1, 2, -1, 4⟩] "blocksworld"
      ⟨"blocksworld", 1, 2, -1, 4⟩ (by decide) rfl).1,
   (claim_C8_undetermined_display [⟨"blocksworld", 1, 2, -1, 4⟩] "blocksworld"
      ⟨"blocksworld", 1, 2, -1, 4⟩ (by decide) rfl).2.1 3,
   (claim_C8_undetermined_display [⟨"blocksworld", 1, 2, -1, 4⟩] "blocksworld"
      ⟨"blocksworld", 1, 2, -1, 4⟩ (by decide) rfl).2.2⟩
